import Mathlib

/-!
Shallow embedding of the payment authorization pipeline of the
procivis-prototype repository, and proofs about its specification.

Sources embedded:
- `src/services/SecurityConfig.js` (thresholds, risk classification)
- `src/services/PaymentService.js` (payment requests, attempt ledger,
  consecutive PIN-failure derivation)
- `src/services/AccountService.js` (`updateAccountBalance`, balance write only)
- the `PaymentController` (`src/unnamed/part_001`): `getPaymentStatus`,
  `processPayment`, `verifyPINAndCompletePayment`, `findAccountByCredentialData`.

Conventions: JS numbers carrying money are embedded as `Int` (no division
occurs on the embedded paths); ISO timestamp strings, which the source only
compares and sorts, are embedded as `Nat`; JS `null`/missing values as
`Option`; thrown errors as `Except`/result constructors.  Logging and
persistence (`saveDataToFile`) have no effect on the in-memory state the
claims are about and are not embedded.
-/

/-- Status of a `PaymentRequest` (`validStatuses` in PaymentService.js). -/
inductive PayStatus
  | pending
  | processing
  | completed
  | failed
  | expired
  | cancelled
deriving DecidableEq

/-- Closed taxonomy of attempt-ledger rows (`validStatuses` in
`PaymentService.recordPaymentAttempt`). -/
inductive AttemptStatus
  | completed
  | failed_pin
  | failed_expired
  | failed_insufficient_funds
  | failed_invalid_credential
  | failed_invalid_state
deriving DecidableEq

/-- A payment request, as stored in `database.get('paymentRequests')`.
Fields not touched by any claim (`paymentUrl`, `qrData`, free-form result
metadata) are omitted. -/
structure PaymentRequest where
  id : String
  amount : Int
  merchantId : String
  description : String
  status : PayStatus
  createdAt : Nat
  updatedAt : Nat
  expiresAt : Nat
  proofRequestId : Option String
deriving DecidableEq

/-- An attempt-ledger row, as built by `PaymentService.recordPaymentAttempt`.
Diagnostic fields not touched by any claim (`errorDetails`, `clientIp`,
`userAgent`, `cardholderName`, `accountEmail`, `transactionId`) are omitted. -/
structure PaymentAttempt where
  paymentRequestId : String
  status : AttemptStatus
  amount : Int
  merchantId : Option String
  accountId : Option String
  errorReason : Option String
  timestamp : Nat
  previousBalance : Option Int
  newBalance : Option Int
deriving DecidableEq

/-- An account as read by the payment flow (AccountService data). -/
structure Account where
  id : String
  cardholderName : String
  pan : String
  pin : String
  email : String
  balance : Int
  credentialId : Option String
deriving DecidableEq

/-- The in-memory state of the system: the two PaymentService collections
plus the AccountService collection. -/
structure SysState where
  paymentRequests : List PaymentRequest
  payments : List PaymentAttempt
  accounts : List Account
deriving DecidableEq

/-! ## SecurityConfig.js -/

/-- The two thresholds held by a `SecurityConfig` instance. -/
structure SecurityConfigState where
  maxPinFailuresBeforeAlert : Int
  maxPinFailuresBeforeRevoke : Int
deriving DecidableEq

/-- JS `parseInt(envVar) || default`: an unset/unparsable variable (`none`)
and a parsed `0` both fall back to the default. -/
def orDefault (v : Option Int) (d : Int) : Int :=
  match v with
  | none => d
  | some x => if x = 0 then d else x

/-- `SecurityConfig.validateConfiguration`, applied to the raw
`(revoke, alert)` pair the constructor loaded. -/
def validateConfiguration (revoke0 alert0 : Int) : SecurityConfigState :=
  let revoke1 := if revoke0 < 1 then 5 else revoke0
  let alert1 := if alert0 < 1 then 2 else alert0
  let alert2 := if alert1 ≥ revoke1 then max 1 (revoke1 - 1) else alert1
  { maxPinFailuresBeforeAlert := alert2, maxPinFailuresBeforeRevoke := revoke1 }

/-- The `SecurityConfig` constructor: load both thresholds from the
environment (with defaults 5 and 2) and validate. -/
def securityConfigInit (envRevoke envAlert : Option Int) : SecurityConfigState :=
  validateConfiguration (orDefault envRevoke 5) (orDefault envAlert 2)

/-- `SecurityConfig.shouldTriggerAlert`. -/
def shouldTriggerAlert (cfg : SecurityConfigState) (consecutiveFailures : Int) : Bool :=
  consecutiveFailures ≥ cfg.maxPinFailuresBeforeAlert

/-- `SecurityConfig.shouldTriggerRevocation`. -/
def shouldTriggerRevocation (cfg : SecurityConfigState) (consecutiveFailures : Int) : Bool :=
  consecutiveFailures ≥ cfg.maxPinFailuresBeforeRevoke

/-- Risk levels returned by `SecurityConfig.getRiskLevel`. -/
inductive RiskLevel
  | LOW
  | MEDIUM
  | HIGH
  | CRITICAL
deriving DecidableEq

/-- JS `Math.ceil(a / 2)` on an integer `a`; `(a + 1).fdiv 2` (floor
division) equals that ceiling for every integer. -/
def ceilHalf (a : Int) : Int := (a + 1).fdiv 2

/-- `SecurityConfig.getRiskLevel`. -/
def getRiskLevel (cfg : SecurityConfigState) (consecutiveFailures : Int) : RiskLevel :=
  if consecutiveFailures ≥ cfg.maxPinFailuresBeforeRevoke then .CRITICAL
  else if consecutiveFailures ≥ cfg.maxPinFailuresBeforeAlert then .HIGH
  else if consecutiveFailures ≥ ceilHalf cfg.maxPinFailuresBeforeAlert then .MEDIUM
  else .LOW

/-- The configuration obtained with both environment variables unset
(defaults: alert 2, revoke 5). -/
def defaultSecurityConfig : SecurityConfigState := securityConfigInit none none

/-! ## PaymentService.js: ledger queries and the consecutive-failure scan -/

/-- `PaymentService.getPaymentsByAccountId`. -/
def getPaymentsByAccountId (payments : List PaymentAttempt) (accountId : String) :
    List PaymentAttempt :=
  payments.filter (fun p => p.accountId = some accountId)

/-- Insert one row into a list already sorted newest-first by timestamp. -/
def insertByTimestampDesc (a : PaymentAttempt) : List PaymentAttempt → List PaymentAttempt
  | [] => [a]
  | b :: l => if b.timestamp ≤ a.timestamp then a :: b :: l else b :: insertByTimestampDesc a l

/-- The `sort((a, b) => new Date(b.timestamp) - new Date(a.timestamp))` in
`getConsecutivePinFailures`: sort newest-first by timestamp. -/
def sortByTimestampDesc : List PaymentAttempt → List PaymentAttempt
  | [] => []
  | a :: l => insertByTimestampDesc a (sortByTimestampDesc l)

/-- The scanning loop of `PaymentService.getConsecutivePinFailures`, on rows
already ordered newest-first: `failed_pin` increments, `completed` breaks,
every other status is passed over. -/
def consecutiveScan : List PaymentAttempt → Nat
  | [] => 0
  | p :: rest =>
    if p.status = AttemptStatus.failed_pin then consecutiveScan rest + 1
    else if p.status = AttemptStatus.completed then 0
    else consecutiveScan rest

/-- `PaymentService.getConsecutivePinFailures`. -/
def getConsecutivePinFailures (payments : List PaymentAttempt) (accountId : String) : Nat :=
  consecutiveScan (sortByTimestampDesc (getPaymentsByAccountId payments accountId))

/-- The hardcoded risk ternary inside `PaymentService.getSecurityStatistics`:
`consecutiveFailures >= 4 ? 'HIGH' : consecutiveFailures >= 2 ? 'MEDIUM' : 'LOW'`. -/
def statisticsRiskLevel (consecutiveFailures : Nat) : RiskLevel :=
  if consecutiveFailures ≥ 4 then .HIGH
  else if consecutiveFailures ≥ 2 then .MEDIUM
  else .LOW

/-- The security-relevant part of `PaymentService.getSecurityStatistics`. -/
structure SecurityStatistics where
  accountId : String
  totalAttempts : Nat
  successfulPayments : Nat
  pinFailures : Nat
  consecutivePinFailures : Nat
  riskLevel : RiskLevel
deriving DecidableEq

/-- `PaymentService.getSecurityStatistics` (the `lastAttempt` field, unused by
any claim, is omitted). -/
def getSecurityStatistics (payments : List PaymentAttempt) (accountId : String) :
    SecurityStatistics :=
  let accountPayments := getPaymentsByAccountId payments accountId
  let consecutiveFailures := getConsecutivePinFailures payments accountId
  { accountId := accountId
    totalAttempts := accountPayments.length
    successfulPayments := (accountPayments.filter (fun p => p.status = AttemptStatus.completed)).length
    pinFailures := (accountPayments.filter (fun p => p.status = AttemptStatus.failed_pin)).length
    consecutivePinFailures := consecutiveFailures
    riskLevel := statisticsRiskLevel consecutiveFailures }

/-! ## PaymentService.js: payment-request mutation -/

/-- `getPaymentRequestById` (JS `find`). -/
def getPaymentRequestById (s : SysState) (paymentId : String) : Option PaymentRequest :=
  s.paymentRequests.find? (fun r => r.id = paymentId)

/-- The list of statuses `updatePaymentRequestStatus` accepts. -/
def validStatuses : List PayStatus :=
  [.pending, .processing, .completed, .failed, .expired, .cancelled]

/-- The in-place write `updatePaymentRequestStatus` performs once its checks
pass: overwrite `status` and `updatedAt` of the request with the given id. -/
def setStatus (s : SysState) (paymentId : String) (status : PayStatus) (now : Nat) : SysState :=
  { s with paymentRequests :=
      s.paymentRequests.map (fun r =>
        if r.id = paymentId then { r with status := status, updatedAt := now } else r) }

/-- `PaymentService.updatePaymentRequestStatus`: throws when the request is
unknown or the status is not in `validStatuses`, otherwise overwrites the
status unconditionally (no check of the current status).  The free-form
`additionalData` merge does not touch the fields embedded here. -/
def updatePaymentRequestStatus (s : SysState) (paymentId : String) (status : PayStatus)
    (now : Nat) : Except String SysState :=
  match getPaymentRequestById s paymentId with
  | none => .error "Payment request not found"
  | some _ =>
    if validStatuses.contains status then .ok (setStatus s paymentId status now)
    else .error "Invalid status"

/-- `AccountService.updateAccountBalance`, restricted to its in-memory
effect: overwrite the balance of the account with the given id. -/
def updateAccountBalance (s : SysState) (accountId : String) (newBalance : Int) : SysState :=
  { s with accounts :=
      s.accounts.map (fun a =>
        if a.id = accountId then { a with balance := newBalance } else a) }

/-! ## PaymentController environment and helpers -/

/-- The claims the controller extracts from an accepted proof
(`cardHolderName` and `last4Digits` paths). -/
structure ProofClaims where
  cardHolderName : Option String
  last4Digits : Option String
deriving DecidableEq

/-- What `procivisService.getProofRequestDetails` reports: whether the proof
state is `ACCEPTED`, and the claims. -/
structure ProofDetails where
  accepted : Bool
  claims : ProofClaims
deriving DecidableEq

/-- The controller's external collaborators for a single call:
`procivisService.isConfigured()`, the outcome of the proof-details fetch
(`none` embeds a thrown error), the current wall-clock instant, and whether
`procivisService.revokeCredential` succeeds when called. -/
structure ControllerEnv where
  configured : Bool
  proofDetails : Option ProofDetails
  now : Nat
  revokeOk : Bool
deriving DecidableEq

/-- `PaymentController.findAccountByCredentialData`: match on cardholder name
and `pan.slice(-4)`. -/
def findAccountByCredentialData (accounts : List Account) (cardHolderName last4Digits : String) :
    Option Account :=
  accounts.find? (fun a =>
    a.cardholderName = cardHolderName ∧ a.pan.takeRight 4 = last4Digits)

/-! ## PaymentController.getPaymentStatus (poll) -/

/-- Caller-visible outcome of `getPaymentStatus`. -/
inductive PollResult
  | notFound
  | view (status : PayStatus)
deriving DecidableEq

/-- The `failed_expired` row `getPaymentStatus` records for a stale PENDING
request. -/
def expiredAttempt (req : PaymentRequest) (now : Nat) : PaymentAttempt :=
  { paymentRequestId := req.id
    status := .failed_expired
    amount := req.amount
    merchantId := some req.merchantId
    accountId := none
    errorReason := some "Payment request expired"
    timestamp := now
    previousBalance := none
    newBalance := none }

/-- `PaymentController.getPaymentStatus`: look the request up, lazily expire a
stale PENDING request (recording a `failed_expired` attempt), then, when a
configured verifier reports the proof ACCEPTED and the request is still
PENDING, advance it to PROCESSING.  A proof-fetch error is caught and leaves
the request unchanged. -/
def getPaymentStatus (env : ControllerEnv) (s : SysState) (paymentId : String) :
    PollResult × SysState :=
  match getPaymentRequestById s paymentId with
  | none => (.notFound, s)
  | some req =>
    let expire := req.status = PayStatus.pending ∧ req.expiresAt ≤ env.now
    let req1 : PaymentRequest := if expire then { req with status := .expired } else req
    let s1 : SysState :=
      if expire then
        let s' := setStatus s paymentId .expired env.now
        { s' with payments := s'.payments ++ [expiredAttempt req env.now] }
      else s
    match req.proofRequestId, env.configured, env.proofDetails with
    | some _, true, some pd =>
      if pd.accepted ∧ req1.status = PayStatus.pending then
        (.view .processing, setStatus s1 paymentId .processing env.now)
      else (.view req1.status, s1)
    | _, _, _ => (.view req1.status, s1)

/-! ## PaymentController.processPayment -/

/-- Caller-visible outcome of `processPayment`. -/
inductive ProcessResult
  | notFound
  | invalidStatus (st : PayStatus)
  | expired
  | readyForPin
  | proofNotAccepted
  | proofError
  | noVerification
deriving DecidableEq

/-- The `failed_expired` row `processPayment` records when expiry is reached
during processing. -/
def expiredDuringProcessingAttempt (req : PaymentRequest) (now : Nat) : PaymentAttempt :=
  { paymentRequestId := req.id
    status := .failed_expired
    amount := req.amount
    merchantId := some req.merchantId
    accountId := none
    errorReason := some "Payment request expired during processing"
    timestamp := now
    previousBalance := none
    newBalance := none }

/-- `PaymentController.processPayment`: reject unknown ids and requests not in
PENDING/PROCESSING; on expiry set the status to EXPIRED and record a
`failed_expired` attempt with the "expired during processing" reason; else
consult the verifier and advance to PROCESSING when the proof is ACCEPTED. -/
def processPayment (env : ControllerEnv) (s : SysState) (paymentId : String) :
    ProcessResult × SysState :=
  match getPaymentRequestById s paymentId with
  | none => (.notFound, s)
  | some req =>
    if ¬ (req.status = PayStatus.pending ∨ req.status = PayStatus.processing) then
      (.invalidStatus req.status, s)
    else if req.expiresAt ≤ env.now then
      let s1 := setStatus s paymentId .expired env.now
      (.expired, { s1 with payments := s1.payments ++ [expiredDuringProcessingAttempt req env.now] })
    else
      match req.proofRequestId, env.configured with
      | some _, true =>
        match env.proofDetails with
        | none => (.proofError, s)
        | some pd =>
          if pd.accepted then (.readyForPin, setStatus s paymentId .processing env.now)
          else (.proofNotAccepted, s)
      | _, _ => (.noVerification, s)

/-! ## PaymentController.verifyPINAndCompletePayment

The handler suspends at `await procivisService.getProofRequestDetails(...)`,
which sits between the PROCESSING-status check and everything that follows
(account resolution, PIN comparison, debit, ledger appends).  It is embedded
as two phases around that suspension point; the sequential handler is their
composition, and an interleaving of two submissions is obtained by running
both first phases before either second phase. -/

/-- Caller-visible outcome of `verifyPINAndCompletePayment` (the HTTP
response body variants). -/
inductive VerifyResult
  | missingPaymentId
  | missingPin
  | requestNotFound
  | invalidState
  | noVerification
  | proofError
  | proofNotAccepted
  | missingClaims
  | accountNotFound
  | invalidPin (consecutiveFailures : Nat)
  | insufficientFunds
  | paymentCompleted (previousBalance newBalance : Int)
deriving DecidableEq

/-- Outcome of a `verifyPINAndCompletePayment` call: the response, the state
it leaves behind, and the collaborator side effects it fired (security-alert
email, `revokeCredential` call, revoked-notification email). -/
structure VerifyOutcome where
  result : VerifyResult
  state : SysState
  alertSent : Bool
  revokeRequested : Bool
  revokedEmailSent : Bool
deriving DecidableEq

/-- The `failed_invalid_state` row recorded when the request is not
PROCESSING (no account is resolved at that point). -/
def invalidStateAttempt (req : PaymentRequest) (now : Nat) : PaymentAttempt :=
  { paymentRequestId := req.id
    status := .failed_invalid_state
    amount := req.amount
    merchantId := some req.merchantId
    accountId := none
    errorReason := some "Payment not in processing state"
    timestamp := now
    previousBalance := none
    newBalance := none }

/-- The `failed_invalid_credential` row recorded when no account matches the
proof claims (the source passes no `accountId` here). -/
def invalidCredentialAttempt (req : PaymentRequest) (now : Nat) : PaymentAttempt :=
  { paymentRequestId := req.id
    status := .failed_invalid_credential
    amount := req.amount
    merchantId := some req.merchantId
    accountId := none
    errorReason := some "Account not found for provided credentials"
    timestamp := now
    previousBalance := none
    newBalance := none }

/-- The `failed_pin` row recorded on a PIN mismatch. -/
def failedPinAttempt (req : PaymentRequest) (account : Account) (now : Nat) : PaymentAttempt :=
  { paymentRequestId := req.id
    status := .failed_pin
    amount := req.amount
    merchantId := some req.merchantId
    accountId := some account.id
    errorReason := some "Invalid PIN"
    timestamp := now
    previousBalance := none
    newBalance := none }

/-- The `failed_insufficient_funds` row recorded when the balance does not
cover the amount. -/
def insufficientFundsAttempt (req : PaymentRequest) (account : Account) (now : Nat) :
    PaymentAttempt :=
  { paymentRequestId := req.id
    status := .failed_insufficient_funds
    amount := req.amount
    merchantId := some req.merchantId
    accountId := some account.id
    errorReason := some "Insufficient balance"
    timestamp := now
    previousBalance := some account.balance
    newBalance := none }

/-- The `completed` row recorded after a successful debit. -/
def completedAttempt (req : PaymentRequest) (account : Account)
    (previousBalance newBalance : Int) (now : Nat) : PaymentAttempt :=
  { paymentRequestId := req.id
    status := .completed
    amount := req.amount
    merchantId := some req.merchantId
    accountId := some account.id
    errorReason := none
    timestamp := now
    previousBalance := some previousBalance
    newBalance := some newBalance }

/-- Result of the pre-suspension phase: either the handler already responded
(`stop`, with the state as it left it), or it suspends at the proof-details
await carrying the request it captured. -/
inductive Phase1Result
  | stop (result : VerifyResult) (state : SysState)
  | go (paymentId : String) (pin : String) (req : PaymentRequest)
deriving DecidableEq

/-- `verifyPINAndCompletePayment` up to the proof-details await: presence
checks for `paymentId` and `pin`, request lookup, and the PROCESSING-status
check (which records a `failed_invalid_state` attempt when it fails). -/
def verifyPINPhase1 (env : ControllerEnv) (s : SysState)
    (paymentId pin : Option String) : Phase1Result :=
  match paymentId with
  | none => .stop .missingPaymentId s
  | some pid =>
    match pin with
    | none => .stop .missingPin s
    | some p =>
      match getPaymentRequestById s pid with
      | none => .stop .requestNotFound s
      | some req =>
        if req.status ≠ PayStatus.processing then
          .stop .invalidState { s with payments := s.payments ++ [invalidStateAttempt req env.now] }
        else .go pid p req

/-- An outcome with no side effects fired. -/
def plainOutcome (r : VerifyResult) (s : SysState) : VerifyOutcome :=
  { result := r, state := s, alertSent := false, revokeRequested := false,
    revokedEmailSent := false }

/-- `verifyPINAndCompletePayment` after the proof-details await resolves,
reading the then-current shared state `s`: proof acceptance and claim checks,
account resolution, PIN comparison with its ledger append and threshold-engine
consultation, the balance check, and the debit-and-complete path. -/
def verifyPINPhase2 (cfg : SecurityConfigState) (env : ControllerEnv) (s : SysState)
    (pid : String) (pin : String) (req : PaymentRequest) : VerifyOutcome :=
  match req.proofRequestId, env.configured with
  | none, _ => plainOutcome .noVerification s
  | some _, false => plainOutcome .noVerification s
  | some _, true =>
    match env.proofDetails with
    | none => plainOutcome .proofError s
    | some pd =>
      if ¬ pd.accepted then plainOutcome .proofNotAccepted s
      else
        match pd.claims.cardHolderName, pd.claims.last4Digits with
        | none, _ => plainOutcome .missingClaims s
        | some _, none => plainOutcome .missingClaims s
        | some name, some last4 =>
          match findAccountByCredentialData s.accounts name last4 with
          | none =>
            plainOutcome .accountNotFound
              { s with payments := s.payments ++ [invalidCredentialAttempt req env.now] }
          | some account =>
            if pin ≠ account.pin then
              let s1 : SysState :=
                { s with payments := s.payments ++ [failedPinAttempt req account env.now] }
              let c := getConsecutivePinFailures s1.payments account.id
              let revoke := shouldTriggerRevocation cfg (c : Int)
                  && account.credentialId.isSome && env.configured
              { result := .invalidPin c
                state := s1
                alertSent := shouldTriggerAlert cfg (c : Int)
                revokeRequested := revoke
                revokedEmailSent := revoke && env.revokeOk }
            else if account.balance < req.amount then
              let s1 : SysState :=
                { s with payments := s.payments ++ [insufficientFundsAttempt req account env.now] }
              plainOutcome .insufficientFunds (setStatus s1 pid .failed env.now)
            else
              let previousBalance := account.balance
              let newBalance := previousBalance - req.amount
              let s1 := updateAccountBalance s account.id newBalance
              let s2 : SysState :=
                { s1 with payments :=
                    s1.payments ++ [completedAttempt req account previousBalance newBalance env.now] }
              plainOutcome (.paymentCompleted previousBalance newBalance)
                (setStatus s2 pid .completed env.now)

/-- `PaymentController.verifyPINAndCompletePayment`: the sequential handler is
phase 1 followed (when it suspends) by phase 2 on the unchanged state. -/
def verifyPINAndCompletePayment (cfg : SecurityConfigState) (env : ControllerEnv)
    (s : SysState) (paymentId pin : Option String) : VerifyOutcome :=
  match verifyPINPhase1 env s paymentId pin with
  | .stop r s' => plainOutcome r s'
  | .go pid p req => verifyPINPhase2 cfg env s pid p req

/-- Two concurrent submissions for the same payment id, scheduled as the Node
event loop permits: each task runs its pre-await phase first, then the tasks'
post-await phases run in order.  When a task responds before its await the
other simply runs after it. -/
def twoConcurrentVerifyPIN (cfg : SecurityConfigState) (env1 env2 : ControllerEnv)
    (s : SysState) (paymentId pin : Option String) : VerifyOutcome × VerifyOutcome :=
  match verifyPINPhase1 env1 s paymentId pin with
  | .stop r1 s1 =>
    (plainOutcome r1 s1, verifyPINAndCompletePayment cfg env2 s1 paymentId pin)
  | .go pid1 p1 req1 =>
    match verifyPINPhase1 env2 s paymentId pin with
    | .stop r2 s2 =>
      (verifyPINPhase2 cfg env1 s2 pid1 p1 req1, plainOutcome r2 s2)
    | .go pid2 p2 req2 =>
      let o1 := verifyPINPhase2 cfg env1 s pid1 p1 req1
      let o2 := verifyPINPhase2 cfg env2 o1.state pid2 p2 req2
      (o1, o2)

/-! ## Spec-side definitions and observation helpers -/

/-- Written from the spec's words for the consecutive-failure refinement
(§4.2): on rows ordered newest-first, the number of `failed_pin` rows
encountered before the first `completed` row (or the end of history), rows of
other kinds being transparent. -/
def specConsecutiveCount (rows : List PaymentAttempt) : Nat :=
  ((rows.takeWhile (fun p => p.status ≠ AttemptStatus.completed)).filter
    (fun p => p.status = AttemptStatus.failed_pin)).length

/-- Terminal statuses of the spec's transition graph (§4.1). -/
def isTerminal (st : PayStatus) : Bool :=
  st = PayStatus.completed ∨ st = PayStatus.failed ∨
  st = PayStatus.expired ∨ st = PayStatus.cancelled

/-- Observed status of the request with the given id. -/
def statusOf (s : SysState) (paymentId : String) : Option PayStatus :=
  (getPaymentRequestById s paymentId).map (fun r => r.status)

/-- Observed balance of the account with the given id. -/
def balanceOf (s : SysState) (accountId : String) : Option Int :=
  (s.accounts.find? (fun a => a.id = accountId)).map (fun a => a.balance)

/-- Number of `completed` ledger rows recorded for one payment request. -/
def completedRowsFor (s : SysState) (paymentId : String) : Nat :=
  (s.payments.filter (fun p =>
    p.paymentRequestId = paymentId ∧ p.status = AttemptStatus.completed)).length

/-! ## Helper lemmas -/

/-- The scanning loop of `getConsecutivePinFailures` computes exactly the
spec's count on any row order. -/
theorem consecutiveScan_eq_spec (l : List PaymentAttempt) :
    consecutiveScan l = specConsecutiveCount l := by
  induction l with
  | nil => rfl
  | cons p rest ih =>
    by_cases h1 : p.status = AttemptStatus.failed_pin
    · have h2 : p.status ≠ AttemptStatus.completed := by rw [h1]; intro hc; cases hc
      simp [consecutiveScan, specConsecutiveCount, List.takeWhile_cons, h1, h2,
        List.filter_cons] at ih ⊢
      omega
    · by_cases h2 : p.status = AttemptStatus.completed
      · simp [consecutiveScan, specConsecutiveCount, List.takeWhile_cons, h1, h2]
      · simp [consecutiveScan, specConsecutiveCount, List.takeWhile_cons, h1, h2,
          List.filter_cons] at ih ⊢
        exact ih

/-- Appending a strictly newest row sorts to the front. -/
theorem sortByTimestampDesc_append_newest (l : List PaymentAttempt) (x : PaymentAttempt)
    (h : ∀ p ∈ l, p.timestamp < x.timestamp) :
    sortByTimestampDesc (l ++ [x]) = x :: sortByTimestampDesc l := by
  induction l with
  | nil => rfl
  | cons a l ih =>
    have ha : a.timestamp < x.timestamp := h a (by simp)
    have hrest : ∀ p ∈ l, p.timestamp < x.timestamp := fun p hp => h p (by simp [hp])
    rw [List.cons_append, sortByTimestampDesc, ih hrest]
    show insertByTimestampDesc a (x :: sortByTimestampDesc l) =
      x :: sortByTimestampDesc (a :: l)
    rw [sortByTimestampDesc, insertByTimestampDesc, if_neg (by omega)]

/-- Appending a row for the scanned account extends its filtered history. -/
theorem getPaymentsByAccountId_append_own (payments : List PaymentAttempt)
    (accountId : String) (x : PaymentAttempt) (hx : x.accountId = some accountId) :
    getPaymentsByAccountId (payments ++ [x]) accountId =
      getPaymentsByAccountId payments accountId ++ [x] := by
  simp [getPaymentsByAccountId, List.filter_append, hx]

/-- A concrete `failed_pin` ledger row used by witnesses. -/
def pinFailRow (t : Nat) : PaymentAttempt :=
  { paymentRequestId := "p1"
    status := .failed_pin
    amount := 10
    merchantId := some "m1"
    accountId := some "acc1"
    errorReason := some "Invalid PIN"
    timestamp := t
    previousBalance := none
    newBalance := none }

/-- A concrete `completed` ledger row used by witnesses. -/
def completedRow (t : Nat) : PaymentAttempt :=
  { paymentRequestId := "p1"
    status := .completed
    amount := 10
    merchantId := some "m1"
    accountId := some "acc1"
    errorReason := none
    timestamp := t
    previousBalance := some 30
    newBalance := some 20 }

/-- C4: the derived consecutive-failure count equals the number of
`failed_pin` rows met scanning the account's rows newest-first before the
first `completed` row, other failure kinds being passed over without
incrementing or resetting; and appending a `completed` row (newer than all of
the account's rows) drives the computed count to 0. -/
theorem consecutive_failures_spec (payments : List PaymentAttempt) (accountId : String) :
    getConsecutivePinFailures payments accountId =
      specConsecutiveCount (sortByTimestampDesc (getPaymentsByAccountId payments accountId)) ∧
    (∀ x : PaymentAttempt, x.accountId = some accountId →
      x.status = AttemptStatus.completed →
      (∀ p ∈ getPaymentsByAccountId payments accountId, p.timestamp < x.timestamp) →
      getConsecutivePinFailures (payments ++ [x]) accountId = 0) := by
  constructor
  · exact consecutiveScan_eq_spec _
  · intro x hacct hst hnewest
    unfold getConsecutivePinFailures
    rw [getPaymentsByAccountId_append_own payments accountId x hacct,
      sortByTimestampDesc_append_newest _ _ hnewest]
    rw [consecutiveScan, if_neg (by rw [hst]; intro hc; cases hc), if_pos hst]

/-- Witness for C4 at the spec's Scenario E: four consecutive `failed_pin`
rows, then a newer `completed` row, give a computed count of 0 (and the
refinement instance holds on that history). -/
theorem consecutive_failures_spec_witness :
    getConsecutivePinFailures
      ([pinFailRow 1, pinFailRow 2, pinFailRow 3, pinFailRow 4] ++ [completedRow 10])
      "acc1" = 0 ∧
    getConsecutivePinFailures [pinFailRow 1, pinFailRow 2, pinFailRow 3, pinFailRow 4] "acc1" =
      specConsecutiveCount (sortByTimestampDesc
        (getPaymentsByAccountId [pinFailRow 1, pinFailRow 2, pinFailRow 3, pinFailRow 4] "acc1")) := by
  constructor
  · exact (consecutive_failures_spec
      [pinFailRow 1, pinFailRow 2, pinFailRow 3, pinFailRow 4] "acc1").2
      (completedRow 10) (by decide) (by decide) (by decide)
  · exact (consecutive_failures_spec
      [pinFailRow 1, pinFailRow 2, pinFailRow 3, pinFailRow 4] "acc1").1

/-! ## C7: threshold-configuration invariant -/

/-- C7 counterexample: with `MAX_PIN_FAILURES_BEFORE_REVOKE=1` and
`MAX_PIN_FAILURES_BEFORE_ALERT=3`, validation clamps the alert threshold to
`max 1 (1 - 1) = 1`, so both thresholds end up 1 and the claimed post-init
invariant `alertThreshold < revokeThreshold` is violated. -/
theorem securityConfig_invariant_counterexample :
    securityConfigInit (some 1) (some 3) =
      { maxPinFailuresBeforeAlert := 1, maxPinFailuresBeforeRevoke := 1 } ∧
    ¬ ((securityConfigInit (some 1) (some 3)).maxPinFailuresBeforeAlert <
        (securityConfigInit (some 1) (some 3)).maxPinFailuresBeforeRevoke) := by
  decide

/-- C7 (amended): after initialization `1 ≤ alertThreshold`,
`1 ≤ revokeThreshold` and `alertThreshold ≤ revokeThreshold` always hold, a
violating alert threshold being clamped to `max 1 (revokeThreshold - 1)`; the
strict invariant `alertThreshold < revokeThreshold` holds whenever the
post-init revoke threshold is at least 2, and initialization is total. -/
theorem securityConfig_invariant (envRevoke envAlert : Option Int) :
    1 ≤ (securityConfigInit envRevoke envAlert).maxPinFailuresBeforeAlert ∧
    1 ≤ (securityConfigInit envRevoke envAlert).maxPinFailuresBeforeRevoke ∧
    (securityConfigInit envRevoke envAlert).maxPinFailuresBeforeAlert ≤
      (securityConfigInit envRevoke envAlert).maxPinFailuresBeforeRevoke ∧
    (2 ≤ (securityConfigInit envRevoke envAlert).maxPinFailuresBeforeRevoke →
      (securityConfigInit envRevoke envAlert).maxPinFailuresBeforeAlert <
        (securityConfigInit envRevoke envAlert).maxPinFailuresBeforeRevoke) := by
  unfold securityConfigInit validateConfiguration orDefault
  cases envRevoke with
  | none =>
    cases envAlert with
    | none => decide
    | some a => simp only; split_ifs <;> simp_all <;> omega
  | some r =>
    cases envAlert with
    | none => simp only; split_ifs <;> simp_all <;> omega
    | some a => simp only; split_ifs <;> simp_all <;> omega

/-- Witness for C7 at the default configuration (both variables unset). -/
theorem securityConfig_invariant_witness :
    1 ≤ defaultSecurityConfig.maxPinFailuresBeforeAlert ∧
    defaultSecurityConfig.maxPinFailuresBeforeAlert <
      defaultSecurityConfig.maxPinFailuresBeforeRevoke :=
  ⟨(securityConfig_invariant none none).1,
    (securityConfig_invariant none none).2.2.2 (by decide)⟩

/-! ## C8: risk classification -/

/-- C8 counterexample: with the default policy (alert 2, revoke 5) and an
account history of five `failed_pin` rows, the derived count is 5;
`SecurityConfig.getRiskLevel` classifies it CRITICAL while the `riskLevel`
reported by `PaymentService.getSecurityStatistics` for the very same count is
the hardcoded HIGH — the classification is not the same wherever reported. -/
theorem riskLevel_report_mismatch :
    (getSecurityStatistics [pinFailRow 1, pinFailRow 2, pinFailRow 3, pinFailRow 4, pinFailRow 5]
        "acc1").consecutivePinFailures = 5 ∧
    getRiskLevel defaultSecurityConfig 5 = RiskLevel.CRITICAL ∧
    (getSecurityStatistics [pinFailRow 1, pinFailRow 2, pinFailRow 3, pinFailRow 4, pinFailRow 5]
        "acc1").riskLevel = RiskLevel.HIGH := by
  decide

/-- C8 (amended): `SecurityConfig.getRiskLevel` is a pure function of the
count relative to the two thresholds — CRITICAL iff `c ≥ revokeThreshold`,
HIGH iff `alertThreshold ≤ c < revokeThreshold`, MEDIUM iff
`ceil(alertThreshold/2) ≤ c < alertThreshold` and LOW otherwise — but
`PaymentService.getSecurityStatistics` reports a `riskLevel` computed from the
fixed cutoffs 4/2 (never CRITICAL), independent of the configured policy, so
the two reports need not agree. -/
theorem riskLevel_classification (cfg : SecurityConfigState) (c : Int)
    (h1 : 1 ≤ cfg.maxPinFailuresBeforeAlert)
    (h2 : cfg.maxPinFailuresBeforeAlert < cfg.maxPinFailuresBeforeRevoke) :
    ((getRiskLevel cfg c = RiskLevel.CRITICAL ↔ cfg.maxPinFailuresBeforeRevoke ≤ c) ∧
     (getRiskLevel cfg c = RiskLevel.HIGH ↔
       cfg.maxPinFailuresBeforeAlert ≤ c ∧ c < cfg.maxPinFailuresBeforeRevoke) ∧
     (getRiskLevel cfg c = RiskLevel.MEDIUM ↔
       ceilHalf cfg.maxPinFailuresBeforeAlert ≤ c ∧ c < cfg.maxPinFailuresBeforeAlert) ∧
     (getRiskLevel cfg c = RiskLevel.LOW ↔ c < ceilHalf cfg.maxPinFailuresBeforeAlert)) ∧
    (∀ (payments : List PaymentAttempt) (accountId : String),
      (getSecurityStatistics payments accountId).riskLevel =
        statisticsRiskLevel (getConsecutivePinFailures payments accountId)) := by
  constructor
  · have hhalf : ceilHalf cfg.maxPinFailuresBeforeAlert =
        (cfg.maxPinFailuresBeforeAlert + 1) / 2 := by
      unfold ceilHalf
      rw [Int.fdiv_eq_ediv _ (by omega)]
    have hbound : 1 ≤ ceilHalf cfg.maxPinFailuresBeforeAlert ∧
        ceilHalf cfg.maxPinFailuresBeforeAlert ≤ cfg.maxPinFailuresBeforeAlert := by
      rw [hhalf]
      omega
    unfold getRiskLevel
    split_ifs with ha hb hc <;>
      refine ⟨?_, ?_, ?_, ?_⟩ <;> simp_all <;> omega
  · intro payments accountId
    rfl

/-- Witness for C8 at the default policy and count 3 (HIGH band). -/
theorem riskLevel_classification_witness :
    getRiskLevel defaultSecurityConfig 3 = RiskLevel.HIGH ∧
    (getSecurityStatistics [] "acc1").riskLevel =
      statisticsRiskLevel (getConsecutivePinFailures [] "acc1") :=
  ⟨((riskLevel_classification defaultSecurityConfig 3 (by decide) (by decide)).1.2.1).2
      (by decide),
    (riskLevel_classification defaultSecurityConfig 3 (by decide) (by decide)).2 [] "acc1"⟩

/-! ## Concrete fixtures used by counterexamples and witnesses -/

/-- An account with a 4444-ending PAN, PIN 1234 and balance 30. -/
def accountAlice : Account :=
  { id := "acc1"
    cardholderName := "Alice Smith"
    pan := "1111222233334444"
    pin := "1234"
    email := "alice@example.com"
    balance := 30
    credentialId := some "cred1" }

/-- A PROCESSING payment request for 10 with an attached proof request. -/
def requestProcessing : PaymentRequest :=
  { id := "p1"
    amount := 10
    merchantId := "m1"
    description := ""
    status := .processing
    createdAt := 0
    updatedAt := 0
    expiresAt := 1000
    proofRequestId := some "proof1" }

/-- A configured verifier reporting the proof ACCEPTED with claims matching
`accountAlice`. -/
def acceptedProofEnv : ControllerEnv :=
  { configured := true
    proofDetails := some
      { accepted := true
        claims := { cardHolderName := some "Alice Smith", last4Digits := some "4444" } }
    now := 100
    revokeOk := true }

/-- One PROCESSING request, an empty ledger, and Alice's account. -/
def baseState : SysState :=
  { paymentRequests := [requestProcessing]
    payments := []
    accounts := [accountAlice] }

/-! ## C1: exactly-once debit under concurrent duplicate submissions -/

/-- The two outcomes of two interleaved verify-PIN submissions for the same
request, both with the correct PIN, scheduled at the proof-details await. -/
def doubleSubmitOutcomes : VerifyOutcome × VerifyOutcome :=
  twoConcurrentVerifyPIN defaultSecurityConfig acceptedProofEnv acceptedProofEnv
    baseState (some "p1") (some "1234")

/-- C1 fails on the code: two concurrent verify-PIN submissions for the same
PROCESSING request (amount 10, balance 30, correct PIN) both pass the
PROCESSING check before either resumes from the proof-details await, and both
debit — the run ends with two `completed` ledger rows for the one
PaymentRequest and the balance debited twice (30 to 10).  Sequentially the
same two submissions perform a single debit: the second one finds the request
COMPLETED, records `failed_invalid_state`, and leaves the balance at 20. -/
theorem verifyPIN_double_debit :
    (doubleSubmitOutcomes.1.result = VerifyResult.paymentCompleted 30 20 ∧
     doubleSubmitOutcomes.2.result = VerifyResult.paymentCompleted 20 10 ∧
     completedRowsFor doubleSubmitOutcomes.2.state "p1" = 2 ∧
     balanceOf doubleSubmitOutcomes.2.state "acc1" = some 10) ∧
    ((verifyPINAndCompletePayment defaultSecurityConfig acceptedProofEnv
        (verifyPINAndCompletePayment defaultSecurityConfig acceptedProofEnv baseState
          (some "p1") (some "1234")).state
        (some "p1") (some "1234")).result = VerifyResult.invalidState ∧
     completedRowsFor
       (verifyPINAndCompletePayment defaultSecurityConfig acceptedProofEnv
          (verifyPINAndCompletePayment defaultSecurityConfig acceptedProofEnv baseState
            (some "p1") (some "1234")).state
          (some "p1") (some "1234")).state "p1" = 1 ∧
     balanceOf
       (verifyPINAndCompletePayment defaultSecurityConfig acceptedProofEnv
          (verifyPINAndCompletePayment defaultSecurityConfig acceptedProofEnv baseState
            (some "p1") (some "1234")).state
          (some "p1") (some "1234")).state "acc1" = some 20) := by
  decide

/-! ## C2: terminal-state immutability -/

/-- The same request after completion. -/
def requestCompleted : PaymentRequest := { requestProcessing with status := PayStatus.completed }

/-- State holding one COMPLETED (terminal) request. -/
def completedState : SysState :=
  { paymentRequests := [requestCompleted]
    payments := []
    accounts := [accountAlice] }

/-- C2 fails on the code as stated: `PaymentService.updatePaymentRequestStatus`
validates only that the new status is a known one, never the current status,
so calling it on a COMPLETED request with `pending` succeeds and rewinds the
terminal status. -/
theorem terminal_status_overwritten :
    statusOf completedState "p1" = some PayStatus.completed ∧
    ((updatePaymentRequestStatus completedState "p1" PayStatus.pending 200).toOption.map
        (fun s => statusOf s "p1")) = some (some PayStatus.pending) := by
  decide

/-- C2 (amended): at the controller entry points the claim holds — polling and
`processPayment` leave a terminal request's state entirely unchanged
(`processPayment` rejecting it as invalid), and a PIN submission is rejected
with a `failed_invalid_state` ledger append and no change to any payment
request; but the service-level `updatePaymentRequestStatus` checks only
membership of the new status and will overwrite a terminal status when
invoked directly. -/
theorem terminal_requests_preserved (cfg : SecurityConfigState) (env : ControllerEnv)
    (s : SysState) (pid : String) (pin : Option String) (req : PaymentRequest)
    (hfind : getPaymentRequestById s pid = some req)
    (hterm : isTerminal req.status = true) :
    (getPaymentStatus env s pid).2 = s ∧
    (processPayment env s pid).2 = s ∧
    (processPayment env s pid).1 = ProcessResult.invalidStatus req.status ∧
    (verifyPINAndCompletePayment cfg env s (some pid) pin).state.paymentRequests =
      s.paymentRequests ∧
    (∀ p, pin = some p →
      (verifyPINAndCompletePayment cfg env s (some pid) pin).result =
        VerifyResult.invalidState ∧
      (verifyPINAndCompletePayment cfg env s (some pid) pin).state.payments =
        s.payments ++ [invalidStateAttempt req env.now]) := by
  have hproc : req.status ≠ PayStatus.processing := by
    intro h
    rw [h] at hterm
    exact absurd hterm (by decide)
  have hpend : req.status ≠ PayStatus.pending := by
    intro h
    rw [h] at hterm
    exact absurd hterm (by decide)
  refine ⟨?_, ?_, ?_, ?_, ?_⟩
  · unfold getPaymentStatus
    rw [hfind]
    cases hpr : req.proofRequestId <;> cases hc : env.configured <;>
      cases hpd : env.proofDetails <;> simp [hpr, hc, hpd, hpend]
  · unfold processPayment
    rw [hfind]
    simp [hpend, hproc]
  · unfold processPayment
    rw [hfind]
    simp [hpend, hproc]
  · unfold verifyPINAndCompletePayment verifyPINPhase1
    cases pin with
    | none => rfl
    | some p => simp [hfind, hproc, plainOutcome]
  · intro p hp
    subst hp
    unfold verifyPINAndCompletePayment verifyPINPhase1
    simp [hfind, hproc, plainOutcome]

/-- Witness for C2 (amended) on a COMPLETED request with a PIN submitted. -/
theorem terminal_requests_preserved_witness :
    (getPaymentStatus acceptedProofEnv completedState "p1").2 = completedState ∧
    (processPayment acceptedProofEnv completedState "p1").1 =
      ProcessResult.invalidStatus PayStatus.completed ∧
    (verifyPINAndCompletePayment defaultSecurityConfig acceptedProofEnv completedState
      (some "p1") (some "1234")).result = VerifyResult.invalidState := by
  have h := terminal_requests_preserved defaultSecurityConfig acceptedProofEnv
    completedState "p1" (some "1234") requestCompleted (by decide) (by decide)
  exact ⟨h.1, h.2.2.1, (h.2.2.2.2 "1234" rfl).1⟩

/-! ## C3: lazy expiry -/

/-- Overwriting the status of the request `find?` located is what `find?`
locates afterwards. -/
theorem find?_map_setStatus (l : List PaymentRequest) (pid : String) (st : PayStatus)
    (now : Nat) (req : PaymentRequest) (h : l.find? (fun r => r.id = pid) = some req) :
    (l.map (fun r => if r.id = pid then { r with status := st, updatedAt := now } else r)).find?
      (fun r => r.id = pid) = some { req with status := st, updatedAt := now } := by
  induction l with
  | nil => simp [List.find?] at h
  | cons a l ih =>
    rw [List.map_cons]
    by_cases ha : a.id = pid
    · rw [List.find?_cons_of_pos _ (by simp [ha])] at h
      cases h
      rw [if_pos ha, List.find?_cons_of_pos _ (by simp [ha])]
    · rw [List.find?_cons_of_neg _ (by simp [ha])] at h
      rw [if_neg ha, List.find?_cons_of_neg _ (by simp [ha])]
      exact ih h

/-- `setStatus` leaves the ledger untouched. -/
theorem setStatus_payments (s : SysState) (pid : String) (st : PayStatus) (now : Nat) :
    (setStatus s pid st now).payments = s.payments := rfl

/-- `setStatus` leaves the accounts untouched. -/
theorem setStatus_accounts (s : SysState) (pid : String) (st : PayStatus) (now : Nat) :
    (setStatus s pid st now).accounts = s.accounts := rfl

/-- The status `setStatus` wrote is the status then observed. -/
theorem statusOf_setStatus (s : SysState) (pid : String) (st : PayStatus) (now : Nat)
    (req : PaymentRequest) (h : getPaymentRequestById s pid = some req) :
    statusOf (setStatus s pid st now) pid = some st := by
  unfold statusOf getPaymentRequestById setStatus
  unfold getPaymentRequestById at h
  rw [find?_map_setStatus s.paymentRequests pid st now req h]
  rfl

/-- The request of `requestProcessing` with its expiry window already past
(`expiresAt = 50` against `now = 100`). -/
def requestProcessingExpired : PaymentRequest := { requestProcessing with expiresAt := 50 }

/-- State holding the expired PROCESSING request. -/
def expiredProcessingState : SysState :=
  { paymentRequests := [requestProcessingExpired]
    payments := []
    accounts := [accountAlice] }

/-- C3 fails on the code as stated: `verifyPINAndCompletePayment` never
re-checks `expiresAt`, so a PROCESSING request whose window has passed is
completed and debited as if live; and when `processPayment` does catch expiry
during processing it sets the request to EXPIRED, not to FAILED as claimed. -/
theorem expired_request_acted_on :
    requestProcessingExpired.expiresAt ≤ acceptedProofEnv.now ∧
    (verifyPINAndCompletePayment defaultSecurityConfig acceptedProofEnv expiredProcessingState
        (some "p1") (some "1234")).result = VerifyResult.paymentCompleted 30 20 ∧
    statusOf (verifyPINAndCompletePayment defaultSecurityConfig acceptedProofEnv
        expiredProcessingState (some "p1") (some "1234")).state "p1" =
      some PayStatus.completed ∧
    (processPayment acceptedProofEnv expiredProcessingState "p1").1 = ProcessResult.expired ∧
    statusOf (processPayment acceptedProofEnv expiredProcessingState "p1").2 "p1" =
      some PayStatus.expired := by
  decide

/-- C3 (amended): polling and `processPayment` re-check `expiresAt` before
acting — `processPayment` on a non-terminal (PENDING or PROCESSING) request
whose window has passed sets it to EXPIRED (not FAILED) and appends exactly
one `failed_expired` attempt carrying the "expired during processing" reason,
and polling expires a stale PENDING request likewise with a `failed_expired`
append — but `verifyPINAndCompletePayment` performs no expiry check at all,
so an expired PROCESSING request can still be completed there. -/
theorem lazy_expiry_on_poll_and_process (env : ControllerEnv) (s : SysState) (pid : String)
    (req : PaymentRequest) (hfind : getPaymentRequestById s pid = some req)
    (hlive : req.status = PayStatus.pending ∨ req.status = PayStatus.processing)
    (hexp : req.expiresAt ≤ env.now) :
    (processPayment env s pid).1 = ProcessResult.expired ∧
    statusOf (processPayment env s pid).2 pid = some PayStatus.expired ∧
    (processPayment env s pid).2.payments =
      s.payments ++ [expiredDuringProcessingAttempt req env.now] ∧
    (expiredDuringProcessingAttempt req env.now).status = AttemptStatus.failed_expired ∧
    (expiredDuringProcessingAttempt req env.now).errorReason =
      some "Payment request expired during processing" ∧
    (req.status = PayStatus.pending →
      statusOf (getPaymentStatus env s pid).2 pid = some PayStatus.expired ∧
      (getPaymentStatus env s pid).2.payments = s.payments ++ [expiredAttempt req env.now]) := by
  have hset := statusOf_setStatus s pid PayStatus.expired env.now req hfind
  have hred : processPayment env s pid =
      (ProcessResult.expired,
        { setStatus s pid PayStatus.expired env.now with
            payments := s.payments ++ [expiredDuringProcessingAttempt req env.now] }) := by
    unfold processPayment
    rw [hfind]
    rcases hlive with h | h <;> simp [h, hexp, setStatus_payments]
  refine ⟨by rw [hred], ?_, by rw [hred], rfl, rfl, ?_⟩
  · rw [hred]
    exact hset
  · intro hp
    have hred2 : (getPaymentStatus env s pid).2 =
        { setStatus s pid PayStatus.expired env.now with
            payments := s.payments ++ [expiredAttempt req env.now] } := by
      unfold getPaymentStatus
      rw [hfind]
      cases hpr : req.proofRequestId <;> cases hc : env.configured <;>
        cases hpd : env.proofDetails <;> simp [hpr, hc, hpd, hp, hexp, setStatus_payments]
    rw [hred2]
    exact ⟨hset, rfl⟩

/-- Witness for C3 (amended) on the expired PROCESSING request. -/
theorem lazy_expiry_witness :
    (processPayment acceptedProofEnv expiredProcessingState "p1").1 = ProcessResult.expired ∧
    statusOf (processPayment acceptedProofEnv expiredProcessingState "p1").2 "p1" =
      some PayStatus.expired := by
  have h := lazy_expiry_on_poll_and_process acceptedProofEnv expiredProcessingState "p1"
    requestProcessingExpired (by decide) (Or.inr (by decide)) (by decide)
  exact ⟨h.1, h.2.1⟩

/-! ## C5 and C6: the failing-PIN path -/

/-- Observing a status ignores the ledger component. -/
theorem statusOf_set_payments (s : SysState) (x : List PaymentAttempt) (pid : String) :
    statusOf { s with payments := x } pid = statusOf s pid := rfl

/-- Reduction of `verifyPINAndCompletePayment` on the wrong-PIN path: request
found and PROCESSING, configured verifier reporting an accepted proof with
both claims, account resolved, PIN mismatching. -/
theorem verifyPIN_wrong_pin (cfg : SecurityConfigState) (env : ControllerEnv) (s : SysState)
    (pid p prid nm l4 : String) (req : PaymentRequest) (pd : ProofDetails) (acct : Account)
    (hfind : getPaymentRequestById s pid = some req)
    (hst : req.status = PayStatus.processing)
    (hpr : req.proofRequestId = some prid)
    (hcfg : env.configured = true)
    (hpd : env.proofDetails = some pd)
    (hacc : pd.accepted = true)
    (hn : pd.claims.cardHolderName = some nm)
    (hl : pd.claims.last4Digits = some l4)
    (hfa : findAccountByCredentialData s.accounts nm l4 = some acct)
    (hpin : p ≠ acct.pin) :
    verifyPINAndCompletePayment cfg env s (some pid) (some p) =
      { result := VerifyResult.invalidPin
          (getConsecutivePinFailures (s.payments ++ [failedPinAttempt req acct env.now]) acct.id)
        state := { s with payments := s.payments ++ [failedPinAttempt req acct env.now] }
        alertSent := shouldTriggerAlert cfg
          ((getConsecutivePinFailures (s.payments ++ [failedPinAttempt req acct env.now]) acct.id : Int))
        revokeRequested := shouldTriggerRevocation cfg
            ((getConsecutivePinFailures (s.payments ++ [failedPinAttempt req acct env.now]) acct.id : Int))
          && acct.credentialId.isSome && env.configured
        revokedEmailSent := (shouldTriggerRevocation cfg
            ((getConsecutivePinFailures (s.payments ++ [failedPinAttempt req acct env.now]) acct.id : Int))
          && acct.credentialId.isSome && env.configured) && env.revokeOk } := by
  unfold verifyPINAndCompletePayment verifyPINPhase1 verifyPINPhase2
  simp [hfind, hst, hpr, hcfg, hpd, hacc, hn, hl, hfa, hpin]

/-- C5: on an incorrect PIN against a PROCESSING request, the request's
status stays PROCESSING and no payment request or account changes at all,
exactly one `failed_pin` row is appended to the ledger, and the threshold
engine is consulted with the count derived from the ledger that includes the
new row. -/
theorem wrong_pin_stays_processing (cfg : SecurityConfigState) (env : ControllerEnv)
    (s : SysState) (pid p prid nm l4 : String) (req : PaymentRequest) (pd : ProofDetails)
    (acct : Account)
    (hfind : getPaymentRequestById s pid = some req)
    (hst : req.status = PayStatus.processing)
    (hpr : req.proofRequestId = some prid)
    (hcfg : env.configured = true)
    (hpd : env.proofDetails = some pd)
    (hacc : pd.accepted = true)
    (hn : pd.claims.cardHolderName = some nm)
    (hl : pd.claims.last4Digits = some l4)
    (hfa : findAccountByCredentialData s.accounts nm l4 = some acct)
    (hpin : p ≠ acct.pin) :
    (verifyPINAndCompletePayment cfg env s (some pid) (some p)).state.paymentRequests =
      s.paymentRequests ∧
    (verifyPINAndCompletePayment cfg env s (some pid) (some p)).state.accounts = s.accounts ∧
    statusOf (verifyPINAndCompletePayment cfg env s (some pid) (some p)).state pid =
      some PayStatus.processing ∧
    (verifyPINAndCompletePayment cfg env s (some pid) (some p)).state.payments =
      s.payments ++ [failedPinAttempt req acct env.now] ∧
    (failedPinAttempt req acct env.now).status = AttemptStatus.failed_pin ∧
    (verifyPINAndCompletePayment cfg env s (some pid) (some p)).result =
      VerifyResult.invalidPin
        (getConsecutivePinFailures (s.payments ++ [failedPinAttempt req acct env.now]) acct.id) ∧
    (verifyPINAndCompletePayment cfg env s (some pid) (some p)).alertSent =
      shouldTriggerAlert cfg
        ((getConsecutivePinFailures (s.payments ++ [failedPinAttempt req acct env.now]) acct.id : Int)) := by
  rw [verifyPIN_wrong_pin cfg env s pid p prid nm l4 req pd acct
    hfind hst hpr hcfg hpd hacc hn hl hfa hpin]
  refine ⟨rfl, rfl, ?_, rfl, rfl, rfl, rfl⟩
  show statusOf { s with payments := s.payments ++ [failedPinAttempt req acct env.now] } pid =
    some PayStatus.processing
  rw [statusOf_set_payments]
  unfold statusOf
  rw [hfind]
  simp [hst]

/-- Witness for C5: wrong PIN 9999 on the base state appends one `failed_pin`
row and reports a consulted count of 1. -/
theorem wrong_pin_stays_processing_witness :
    statusOf (verifyPINAndCompletePayment defaultSecurityConfig acceptedProofEnv baseState
        (some "p1") (some "9999")).state "p1" = some PayStatus.processing ∧
    (verifyPINAndCompletePayment defaultSecurityConfig acceptedProofEnv baseState
        (some "p1") (some "9999")).state.payments =
      [] ++ [failedPinAttempt requestProcessing accountAlice 100] ∧
    (verifyPINAndCompletePayment defaultSecurityConfig acceptedProofEnv baseState
        (some "p1") (some "9999")).result =
      VerifyResult.invalidPin
        (getConsecutivePinFailures
          ([] ++ [failedPinAttempt requestProcessing accountAlice 100]) "acc1") := by
  have h := wrong_pin_stays_processing defaultSecurityConfig acceptedProofEnv baseState
    "p1" "9999" "proof1" "Alice Smith" "4444" requestProcessing
    (ProofDetails.mk true (ProofClaims.mk (some "Alice Smith") (some "4444"))) accountAlice
    (by decide) (by decide) (by decide) (by decide) (by decide) (by decide)
    (by decide) (by decide) (by decide) (by decide)
  exact ⟨h.2.2.1, h.2.2.2.1, h.2.2.2.2.2.1⟩

/-- Alice's account with no credential on file. -/
def accountNoCredential : Account := { accountAlice with credentialId := none }

/-- State at the revocation threshold: four prior `failed_pin` rows for the
account, which has no credential id. -/
def noCredentialState : SysState :=
  { paymentRequests := [requestProcessing]
    payments := [pinFailRow 1, pinFailRow 2, pinFailRow 3, pinFailRow 4]
    accounts := [accountNoCredential] }

/-- State at the revocation threshold with a credential on file. -/
def atThresholdState : SysState :=
  { paymentRequests := [requestProcessing]
    payments := [pinFailRow 1, pinFailRow 2, pinFailRow 3, pinFailRow 4]
    accounts := [accountAlice] }

/-- C6 fails on the code as stated: on the fifth consecutive failure the
count reaches the revoke threshold (`shouldTriggerRevocation 5 = true`), yet
the handler requests no revocation because the guard
`account.credentialId && isConfigured()` finds no credential id on the
account. -/
theorem revocation_skipped_without_credential :
    (verifyPINAndCompletePayment defaultSecurityConfig acceptedProofEnv noCredentialState
        (some "p1") (some "9999")).result = VerifyResult.invalidPin 5 ∧
    shouldTriggerRevocation defaultSecurityConfig 5 = true ∧
    (verifyPINAndCompletePayment defaultSecurityConfig acceptedProofEnv noCredentialState
        (some "p1") (some "9999")).revokeRequested = false := by
  decide

/-- C6 (amended): on every failing PIN check the alert fires exactly when the
derived count reaches the alert threshold (a pure function of the count — not
debounced), revocation is requested exactly when the count reaches the revoke
threshold AND the account has a credential id on file, and a failing
revocation call changes neither the caller-visible result nor the stored
state (the failure is caught and the response still reports the invalid
PIN). -/
theorem threshold_side_effects (cfg : SecurityConfigState) (env : ControllerEnv)
    (s : SysState) (pid p prid nm l4 : String) (req : PaymentRequest) (pd : ProofDetails)
    (acct : Account)
    (hfind : getPaymentRequestById s pid = some req)
    (hst : req.status = PayStatus.processing)
    (hpr : req.proofRequestId = some prid)
    (hcfg : env.configured = true)
    (hpd : env.proofDetails = some pd)
    (hacc : pd.accepted = true)
    (hn : pd.claims.cardHolderName = some nm)
    (hl : pd.claims.last4Digits = some l4)
    (hfa : findAccountByCredentialData s.accounts nm l4 = some acct)
    (hpin : p ≠ acct.pin) :
    ((verifyPINAndCompletePayment cfg env s (some pid) (some p)).alertSent =
      shouldTriggerAlert cfg
        ((getConsecutivePinFailures (s.payments ++ [failedPinAttempt req acct env.now]) acct.id : Int))) ∧
    ((verifyPINAndCompletePayment cfg env s (some pid) (some p)).revokeRequested =
      (shouldTriggerRevocation cfg
        ((getConsecutivePinFailures (s.payments ++ [failedPinAttempt req acct env.now]) acct.id : Int))
        && acct.credentialId.isSome)) ∧
    ((verifyPINAndCompletePayment cfg env s (some pid) (some p)).result =
      VerifyResult.invalidPin
        (getConsecutivePinFailures (s.payments ++ [failedPinAttempt req acct env.now]) acct.id)) ∧
    ((verifyPINAndCompletePayment cfg { env with revokeOk := false } s
        (some pid) (some p)).result =
      (verifyPINAndCompletePayment cfg env s (some pid) (some p)).result) ∧
    ((verifyPINAndCompletePayment cfg { env with revokeOk := false } s
        (some pid) (some p)).state =
      (verifyPINAndCompletePayment cfg env s (some pid) (some p)).state) := by
  have h1 := verifyPIN_wrong_pin cfg env s pid p prid nm l4 req pd acct
    hfind hst hpr hcfg hpd hacc hn hl hfa hpin
  have h2 := verifyPIN_wrong_pin cfg { env with revokeOk := false } s pid p prid nm l4 req pd acct
    hfind hst hpr hcfg hpd hacc hn hl hfa hpin
  rw [h1, h2]
  refine ⟨rfl, ?_, rfl, rfl, rfl⟩
  simp [hcfg]

/-- Witness for C6 at the revocation threshold with a credential on file:
five consecutive failures alert and request revocation, and a failing
revocation call leaves the response identical. -/
theorem threshold_side_effects_witness :
    (verifyPINAndCompletePayment defaultSecurityConfig acceptedProofEnv atThresholdState
        (some "p1") (some "9999")).revokeRequested =
      (shouldTriggerRevocation defaultSecurityConfig
        ((getConsecutivePinFailures
          ([pinFailRow 1, pinFailRow 2, pinFailRow 3, pinFailRow 4] ++
            [failedPinAttempt requestProcessing accountAlice 100]) "acc1" : Int))
        && accountAlice.credentialId.isSome) ∧
    (verifyPINAndCompletePayment defaultSecurityConfig
        { acceptedProofEnv with revokeOk := false } atThresholdState
        (some "p1") (some "9999")).result =
      (verifyPINAndCompletePayment defaultSecurityConfig acceptedProofEnv atThresholdState
        (some "p1") (some "9999")).result := by
  have h := threshold_side_effects defaultSecurityConfig acceptedProofEnv atThresholdState
    "p1" "9999" "proof1" "Alice Smith" "4444" requestProcessing
    (ProofDetails.mk true (ProofClaims.mk (some "Alice Smith") (some "4444"))) accountAlice
    (by decide) (by decide) (by decide) (by decide) (by decide) (by decide)
    (by decide) (by decide) (by decide) (by decide)
  exact ⟨h.2.1, h.2.2.2.1⟩

/-! ## C9: missing claims and unresolvable accounts -/

/-- A configured verifier reporting an accepted proof whose `last4Digits`
claim is missing. -/
def missingClaimEnv : ControllerEnv :=
  { acceptedProofEnv with
      proofDetails := some
        { accepted := true
          claims := { cardHolderName := some "Alice Smith", last4Digits := none } } }

/-- C9 fails on the code as stated: when a proof claim is missing the handler
rejects the call with no ledger append at all — no `failed_invalid_credential`
attempt is recorded and the state is untouched. -/
theorem missing_claims_no_append :
    (verifyPINAndCompletePayment defaultSecurityConfig missingClaimEnv baseState
        (some "p1") (some "1234")).result = VerifyResult.missingClaims ∧
    (verifyPINAndCompletePayment defaultSecurityConfig missingClaimEnv baseState
        (some "p1") (some "1234")).state = baseState := by
  decide

/-- C9 (amended): when the claims are present but no account matches them,
exactly one `failed_invalid_credential` attempt is appended and the call is
rejected pre-transition, the request staying PROCESSING; when a claim itself
is missing, the call is rejected with no ledger append and no state change at
all. -/
theorem unresolved_account_logged (cfg : SecurityConfigState) (env : ControllerEnv)
    (s : SysState) (pid p prid nm l4 : String) (req : PaymentRequest) (pd : ProofDetails)
    (hfind : getPaymentRequestById s pid = some req)
    (hst : req.status = PayStatus.processing)
    (hpr : req.proofRequestId = some prid)
    (hcfg : env.configured = true)
    (hpd : env.proofDetails = some pd)
    (hacc : pd.accepted = true)
    (hn : pd.claims.cardHolderName = some nm)
    (hl : pd.claims.last4Digits = some l4)
    (hfa : findAccountByCredentialData s.accounts nm l4 = none) :
    (verifyPINAndCompletePayment cfg env s (some pid) (some p)).result =
      VerifyResult.accountNotFound ∧
    (verifyPINAndCompletePayment cfg env s (some pid) (some p)).state.payments =
      s.payments ++ [invalidCredentialAttempt req env.now] ∧
    (invalidCredentialAttempt req env.now).status = AttemptStatus.failed_invalid_credential ∧
    (verifyPINAndCompletePayment cfg env s (some pid) (some p)).state.paymentRequests =
      s.paymentRequests ∧
    statusOf (verifyPINAndCompletePayment cfg env s (some pid) (some p)).state pid =
      some PayStatus.processing ∧
    (∀ (env2 : ControllerEnv) (pd2 : ProofDetails), env2.configured = true →
      env2.proofDetails = some pd2 → pd2.accepted = true →
      (pd2.claims.cardHolderName = none ∨ pd2.claims.last4Digits = none) →
      (verifyPINAndCompletePayment cfg env2 s (some pid) (some p)).state = s ∧
      (verifyPINAndCompletePayment cfg env2 s (some pid) (some p)).result =
        VerifyResult.missingClaims) := by
  have hred : verifyPINAndCompletePayment cfg env s (some pid) (some p) =
      plainOutcome VerifyResult.accountNotFound
        { s with payments := s.payments ++ [invalidCredentialAttempt req env.now] } := by
    unfold verifyPINAndCompletePayment verifyPINPhase1 verifyPINPhase2
    simp [hfind, hst, hpr, hcfg, hpd, hacc, hn, hl, hfa]
  refine ⟨by rw [hred]; rfl, by rw [hred]; rfl, rfl, by rw [hred]; rfl, ?_, ?_⟩
  · rw [hred]
    show statusOf { s with payments := s.payments ++ [invalidCredentialAttempt req env.now] } pid =
      some PayStatus.processing
    rw [statusOf_set_payments]
    unfold statusOf
    rw [hfind]
    simp [hst]
  · intro env2 pd2 hcfg2 hpd2 hacc2 hmiss
    have hred2 : verifyPINAndCompletePayment cfg env2 s (some pid) (some p) =
        plainOutcome VerifyResult.missingClaims s := by
      unfold verifyPINAndCompletePayment verifyPINPhase1 verifyPINPhase2
      rcases hmiss with hm | hm
      · cases hl2 : pd2.claims.last4Digits <;>
          simp [hfind, hst, hpr, hcfg2, hpd2, hacc2, hm, hl2]
      · cases hn2 : pd2.claims.cardHolderName <;>
          simp [hfind, hst, hpr, hcfg2, hpd2, hacc2, hm, hn2]
    rw [hred2]
    exact ⟨rfl, rfl⟩

/-- State with the PROCESSING request and no accounts at all. -/
def noAccountState : SysState :=
  { paymentRequests := [requestProcessing]
    payments := []
    accounts := [] }

/-- Witness for C9 (amended): with no matching account the call appends the
one `failed_invalid_credential` row and the request stays PROCESSING; with a
missing claim the state is untouched. -/
theorem unresolved_account_logged_witness :
    (verifyPINAndCompletePayment defaultSecurityConfig acceptedProofEnv noAccountState
        (some "p1") (some "1234")).result = VerifyResult.accountNotFound ∧
    (verifyPINAndCompletePayment defaultSecurityConfig acceptedProofEnv noAccountState
        (some "p1") (some "1234")).state.payments =
      [] ++ [invalidCredentialAttempt requestProcessing 100] ∧
    (verifyPINAndCompletePayment defaultSecurityConfig missingClaimEnv noAccountState
        (some "p1") (some "1234")).state = noAccountState := by
  have h := unresolved_account_logged defaultSecurityConfig acceptedProofEnv noAccountState
    "p1" "1234" "proof1" "Alice Smith" "4444" requestProcessing
    (ProofDetails.mk true (ProofClaims.mk (some "Alice Smith") (some "4444")))
    (by decide) (by decide) (by decide) (by decide) (by decide) (by decide)
    (by decide) (by decide) (by decide)
  refine ⟨h.1, h.2.1, ?_⟩
  exact (h.2.2.2.2.2 missingClaimEnv
    (ProofDetails.mk true (ProofClaims.mk (some "Alice Smith") none))
    (by decide) (by decide) (by decide) (Or.inr (by decide))).1

/-! ## C10: missing PIN or unknown request -/

/-- C10: a call without a `pin` or naming an unknown PaymentRequest returns a
failure and performs no mutation whatsoever — no ledger row of any kind, no
payment-request change, no balance change, no side effect. -/
theorem missing_pin_or_unknown_request_no_mutation (cfg : SecurityConfigState)
    (env : ControllerEnv) (s : SysState) (pid : String) :
    ((verifyPINAndCompletePayment cfg env s (some pid) none).state = s ∧
     (verifyPINAndCompletePayment cfg env s (some pid) none).result =
       VerifyResult.missingPin ∧
     (verifyPINAndCompletePayment cfg env s (some pid) none).alertSent = false ∧
     (verifyPINAndCompletePayment cfg env s (some pid) none).revokeRequested = false) ∧
    (∀ p : String, getPaymentRequestById s pid = none →
      (verifyPINAndCompletePayment cfg env s (some pid) (some p)).state = s ∧
      (verifyPINAndCompletePayment cfg env s (some pid) (some p)).result =
        VerifyResult.requestNotFound ∧
      (verifyPINAndCompletePayment cfg env s (some pid) (some p)).alertSent = false ∧
      (verifyPINAndCompletePayment cfg env s (some pid) (some p)).revokeRequested = false) := by
  refine ⟨⟨rfl, rfl, rfl, rfl⟩, ?_⟩
  intro p hnone
  have hred : verifyPINAndCompletePayment cfg env s (some pid) (some p) =
      plainOutcome VerifyResult.requestNotFound s := by
    unfold verifyPINAndCompletePayment verifyPINPhase1
    simp [hnone]
  rw [hred]
  exact ⟨rfl, rfl, rfl, rfl⟩

/-- Witness for C10 on the base state with an unknown payment id. -/
theorem missing_pin_no_mutation_witness :
    (verifyPINAndCompletePayment defaultSecurityConfig acceptedProofEnv baseState
        (some "p1") none).state = baseState ∧
    (verifyPINAndCompletePayment defaultSecurityConfig acceptedProofEnv baseState
        (some "unknown") (some "1234")).state = baseState ∧
    (verifyPINAndCompletePayment defaultSecurityConfig acceptedProofEnv baseState
        (some "unknown") (some "1234")).result = VerifyResult.requestNotFound := by
  have h1 := (missing_pin_or_unknown_request_no_mutation defaultSecurityConfig acceptedProofEnv
    baseState "p1").1
  have h2 := (missing_pin_or_unknown_request_no_mutation defaultSecurityConfig acceptedProofEnv
    baseState "unknown").2 "1234" (by decide)
  exact ⟨h1.1, h2.1, h2.2.1⟩
